import Mathlib

/-!
Verification of the torchseal leak checker (src/torchseal/torchseal.py)
against its natural-language specification.

The Python module is shallowly embedded below. Heap objects are modelled by
the structure `Obj`, which records exactly the observations the Python code
can make of a garbage-collected heap object: its identity token (`id(o)`),
its shape, whether `torch.is_tensor(o)` holds, whether it has a `data`
attribute, whether probing that attribute raises, and whether the value of
the `data` attribute is itself a tensor.  The class `LeakChecker` becomes a
Lean structure holding the same three fields as the Python object
(`original_tensors`, `error_on_leak`, `excluded_tensors`); the Python set of
baseline ids is modelled as a duplicate-free `List Nat`, and the Python dict
`excluded_tensors` as an association list where the most recent binding for
a key shadows older ones (exactly a dict's observable behaviour through
`in` / `[]`).  Raising `MemoryLeakError` and emitting `MemoryLeakWarning`
are modelled by the `Emission` inductive: a call to `check_leaks` returns
the (possibly updated) checker state together with the ordered list of
emissions the call produced, an error emission being final (it aborts the
call, so nothing can follow it).
-/

namespace Torchseal

/-- Model of a heap object as observed by the scanner: identity token,
shape, the result of the direct `torch.is_tensor` check, whether the object
has a `data` attribute, whether probing the `data` attribute raises, and
whether the value of the `data` attribute passes the direct tensor check. -/
structure Obj where
  objId : Nat
  shape : List Nat
  isTensor : Bool
  hasData : Bool
  probeRaises : Bool
  dataIsTensor : Bool
deriving DecidableEq

/-- An observable emission of a `check_leaks` call: a raised
`MemoryLeakError` or an emitted `MemoryLeakWarning`, each carrying the list
of leaked tensors it reports. -/
inductive Emission where
  | err : List Obj → Emission
  | warn : List Obj → Emission
deriving DecidableEq

/-- The state of a `LeakChecker` instance: `original_tensors` is `none`
before the baseline is captured and `some ids` afterwards (the Python set
of baseline identity tokens, stored duplicate-free), `error_on_leak` is the
configured policy, and `excluded_tensors` models the Python dict from
identity token to recorded shape (most recent binding first). -/
structure LeakChecker where
  original_tensors : Option (List Nat)
  error_on_leak : Bool
  excluded_tensors : List (Nat × List Nat)
deriving DecidableEq

/-- Lookup in the exclusion registry, modelling Python dict access: the
most recently recorded binding for a key is found first. -/
def regLookup (i : Nat) : List (Nat × List Nat) → Option (List Nat)
  | [] => none
  | (k, v) :: rest => if k = i then some v else regLookup i rest

/-- Evaluation of the scanner's per-object condition
`torch.is_tensor(object_) or hasattr(object_, 'data') and
torch.is_tensor(object_)` with Python's short-circuit semantics, returning
`Except.error ()` when probing the object raises.  Note that the source
tests `object_` (not `object_.data`) in the second disjunct, so
`dataIsTensor` is never consulted. -/
def probeObj (o : Obj) : Except Unit Bool :=
  if o.isTensor then Except.ok true
  else if o.probeRaises then Except.error ()
  else if o.hasData then Except.ok o.isTensor
  else Except.ok false

/-- Embedding of `LeakChecker._get_tensors`: walk every object tracked by
the garbage collector, append those whose probe succeeds with `true`, and
silently skip an object whose probe raises (the bare `except: pass`). -/
def get_tensors : List Obj → List Obj
  | [] => []
  | o :: os =>
    match probeObj o with
    | Except.ok true => o :: get_tensors os
    | Except.ok false => get_tensors os
    | Except.error _ => get_tensors os

/-- Embedding of `LeakChecker.is_excluded`: `false` when the identity token
is not a key of the registry, otherwise the recorded shape is compared with
the tensor's current shape. -/
def is_excluded (reg : List (Nat × List Nat)) (t : Obj) : Bool :=
  match regLookup t.objId reg with
  | none => false
  | some s => if s = t.shape then true else false

/-- The per-tensor leak test of `check_leaks`:
`id(tensor) not in self.original_tensors and not self.is_excluded(tensor)`. -/
def isLeaked (baseline : List Nat) (reg : List (Nat × List Nat)) (t : Obj) : Bool :=
  !(baseline.contains t.objId) && !(is_excluded reg t)

/-- Embedding of the reporting loop of `check_leaks` in the baselined
branch.  The source appends a leaking tensor to `leaked_tensors` and then,
still inside the loop body, calls `_raise_exception(leaked_tensors)`
whenever the accumulated list is non-empty: in error mode the raised
`MemoryLeakError` aborts the loop (one final `err` emission), in warning
mode a `MemoryLeakWarning` is emitted and the loop continues. -/
def checkLoop (errOnLeak : Bool) (baseline : List Nat) (reg : List (Nat × List Nat))
    (acc : List Obj) : List Obj → List Emission
  | [] => []
  | t :: ts =>
    let acc' := if isLeaked baseline reg t then acc ++ [t] else acc
    if acc'.isEmpty then checkLoop errOnLeak baseline reg acc' ts
    else if errOnLeak then [Emission.err acc']
    else Emission.warn acc' :: checkLoop errOnLeak baseline reg acc' ts

/-- Embedding of `LeakChecker.exclude_tensors_from_report`: for each
argument in order, record `(id(tensor), list(tensor.shape))` in the
registry, the new binding shadowing any previous one for the same key. -/
def exclude_tensors_from_report (c : LeakChecker) (args : List Obj) : LeakChecker :=
  { c with excluded_tensors :=
      args.foldl (fun reg t => (t.objId, t.shape) :: reg) c.excluded_tensors }

/-- Embedding of `LeakChecker.check_leaks`.  On the first call
(`original_tensors is None`) the set of scanned identity tokens becomes the
baseline and nothing is reported.  On later calls, when the number of
scanned tensors differs from the size of the baseline set, the reporting
loop runs; otherwise the call returns silently.  The checker state is never
modified after the baseline is set. -/
def check_leaks (c : LeakChecker) (heap : List Obj) : LeakChecker × List Emission :=
  let tensors := get_tensors heap
  match c.original_tensors with
  | none =>
    ({ c with original_tensors := some ((tensors.map Obj.objId).dedup) }, [])
  | some baseline =>
    if tensors.length ≠ baseline.length then
      (c, checkLoop c.error_on_leak baseline c.excluded_tensors [] tensors)
    else (c, [])

/-- The multiset of objects mentioned across all emissions of one
`check_leaks` call, in order of appearance. -/
def reportedObjs (ems : List Emission) : List Obj :=
  ems.foldr (fun e acc => (match e with | Emission.err l => l | Emission.warn l => l) ++ acc) []

/-- A plain tensor object: passes the direct tensor check, no `data`
attribute, probing never raises. -/
def tensorObj (i : Nat) (s : List Nat) : Obj := ⟨i, s, true, false, false, false⟩

/-- A wrapper object: not itself a tensor, but has a `data` attribute whose
value is a tensor (the case predicate (b) of the spec is meant to catch). -/
def wrapperObj : Obj := ⟨9, [4], false, true, false, true⟩

/-- A hostile heap object: probing its `data` attribute raises. -/
def hostileObj : Obj := ⟨8, [], false, true, true, false⟩

/-- C2: the claim says a non-tensor wrapper whose `data` attribute is a
tensor is included in the scan.  The source's condition tests
`torch.is_tensor(object_)` in both disjuncts (never `object_.data`), so the
wrapper is excluded: scanning a heap holding exactly the wrapper yields the
empty list even though the wrapper has a `data` attribute holding a
tensor. -/
theorem wrapper_with_tensor_data_is_not_scanned :
    wrapperObj.isTensor = false ∧ wrapperObj.hasData = true ∧
    wrapperObj.dataIsTensor = true ∧ wrapperObj.probeRaises = false ∧
    get_tensors [wrapperObj] = [] := by
  decide

/-- C3: in the baselined state, when the number of scanned tensors equals
the size of the baseline identity set, `check_leaks` skips the diff and the
report entirely: the state is unchanged and nothing is raised or warned,
whether or not the identity sets coincide. -/
theorem count_equal_skips_check (c : LeakChecker) (heap : List Obj) (b : List Nat)
    (hb : c.original_tensors = some b)
    (hlen : (get_tensors heap).length = b.length) :
    check_leaks c heap = (c, []) := by
  simp [check_leaks, hb, hlen]

/-- C3 witness: a baselined checker whose baseline set `{7}` and current
scan `[tensor id 5]` have equal counts but disjoint identities: the call
reports nothing. -/
theorem count_equal_skips_check_witness :
    check_leaks ⟨some [7], true, []⟩ [tensorObj 5 [2]] = (⟨some [7], true, []⟩, []) :=
  count_equal_skips_check ⟨some [7], true, []⟩ [tensorObj 5 [2]] [7] rfl rfl

/-- C4: `is_excluded` holds exactly when the exclusion registry maps the
tensor's identity token to the tensor's current shape: an identity match
with a different recorded shape does not exclude. -/
theorem is_excluded_iff_identity_and_shape (reg : List (Nat × List Nat)) (t : Obj) :
    is_excluded reg t = true ↔ regLookup t.objId reg = some t.shape := by
  unfold is_excluded
  cases h : regLookup t.objId reg with
  | none => simp
  | some s =>
    constructor
    · intro hs
      by_cases hst : s = t.shape
      · rw [hst]
      · simp [hst] at hs
    · intro hs
      simp only [Option.some.injEq] at hs
      simp [hs]

/-- C5: a first `check_leaks` call (no baseline yet) records the set of
scanned identity tokens as the baseline and produces no emission — it never
raises `MemoryLeakError` nor emits `MemoryLeakWarning`, whatever the heap
holds. -/
theorem first_check_only_baselines (c : LeakChecker) (heap : List Obj)
    (h : c.original_tensors = none) :
    check_leaks c heap =
      ({ c with original_tensors := some ((get_tensors heap).map Obj.objId).dedup }, []) := by
  simp [check_leaks, h]

/-- C5 witness: a fresh checker scanning a heap that holds two tensors and
a hostile object baselines to ids `[1, 2]` with no emission. -/
theorem first_check_only_baselines_witness :
    check_leaks ⟨none, true, []⟩ [tensorObj 1 [2], hostileObj, tensorObj 2 []] =
      (⟨some [1, 2], true, []⟩, []) :=
  (first_check_only_baselines ⟨none, true, []⟩
    [tensorObj 1 [2], hostileObj, tensorObj 2 []] rfl).trans (by decide)

/-- C6: once the checker is baselined, `check_leaks` never modifies the
checker's state — in particular the baseline identity set is never
overwritten by a later call. -/
theorem baselined_state_never_modified (c : LeakChecker) (heap : List Obj) (b : List Nat)
    (hb : c.original_tensors = some b) :
    (check_leaks c heap).1 = c := by
  simp only [check_leaks, hb]
  split <;> rfl

/-- C6 witness: a baselined checker whose second call detects and reports a
leak still comes out of the call with its state (baseline included)
untouched. -/
theorem baselined_state_never_modified_witness :
    (check_leaks ⟨some [7], true, []⟩ [tensorObj 1 [], tensorObj 2 []]).1 =
      ⟨some [7], true, []⟩ :=
  baselined_state_never_modified ⟨some [7], true, []⟩
    [tensorObj 1 [], tensorObj 2 []] [7] rfl

/-- C1: the claim says all leaks of one pass are collected and the Reporter
is invoked exactly once with the full list.  The source calls
`_raise_exception(leaked_tensors)` inside the collection loop (the guard
`if len(leaked_tensors) > 0` is indented under the `for`), so with two new
tensors the error-mode call raises after collecting only the first leak
(one `err` emission listing one tensor, not two), and the warning-mode call
invokes the reporter on every remaining iteration (two `warn` emissions
with cumulative lists). -/
theorem reporter_invoked_inside_loop :
    check_leaks ⟨some [100], true, []⟩ [tensorObj 1 [2], tensorObj 2 [3]] =
      (⟨some [100], true, []⟩, [Emission.err [tensorObj 1 [2]]]) ∧
    check_leaks ⟨some [100], false, []⟩ [tensorObj 1 [2], tensorObj 2 [3]] =
      (⟨some [100], false, []⟩,
        [Emission.warn [tensorObj 1 [2]],
         Emission.warn [tensorObj 1 [2], tensorObj 2 [3]]]) := by
  decide

/-- C7: the claim says the two configurations report the same set of
leaked objects and differ only in the signalling channel.  On the same
state and heap (baseline `{200}`, two new tensors), the error-mode run
reports only the tensor with id 11 while the warning-mode run reports the
tensors with ids 11 and 12: the configurations disagree on the reported
set, not merely on error-versus-warning. -/
theorem modes_report_different_objects :
    (reportedObjs
        (check_leaks ⟨some [200], true, []⟩ [tensorObj 11 [5], tensorObj 12 [6]]).2).dedup =
      [tensorObj 11 [5]] ∧
    (reportedObjs
        (check_leaks ⟨some [200], false, []⟩ [tensorObj 11 [5], tensorObj 12 [6]]).2).dedup =
      [tensorObj 11 [5], tensorObj 12 [6]] := by
  decide

/-- C8: an object whose probe raises is skipped and the scan completes as
if the object were absent: scanning any heap with a hostile object spliced
in returns exactly the scan of the heap without it — no exception
propagates out of `_get_tensors`. -/
theorem scan_skips_raising_object (pre post : List Obj) (h : Obj)
    (hh : probeObj h = Except.error ()) :
    get_tensors (pre ++ h :: post) = get_tensors (pre ++ post) := by
  induction pre with
  | nil => simp [get_tensors, hh]
  | cons a as ih =>
    cases hpa : probeObj a with
    | error e => simp [get_tensors, hpa, ih]
    | ok b => cases b <;> simp [get_tensors, hpa, ih]

/-- C8 witness: a heap of two tensors with a hostile object between them
scans to the same result as without the hostile object. -/
theorem scan_skips_raising_object_witness :
    get_tensors [tensorObj 3 [1], hostileObj, tensorObj 4 [2]] =
      get_tensors [tensorObj 3 [1], tensorObj 4 [2]] :=
  scan_skips_raising_object [tensorObj 3 [1]] [tensorObj 4 [2]] hostileObj rfl

/-- Registry lookup distributes over append: the left part is consulted
first, the right part only when the key is absent from the left. -/
theorem regLookup_append (l₁ l₂ : List (Nat × List Nat)) (i : Nat) :
    regLookup i (l₁ ++ l₂) =
      match regLookup i l₁ with
      | some v => some v
      | none => regLookup i l₂ := by
  induction l₁ with
  | nil => simp [regLookup]
  | cons p rest ih =>
    obtain ⟨k, v⟩ := p
    by_cases hk : k = i <;> simp [regLookup, hk, ih]

/-- Looking up a key in the entry list built from a list of objects finds
the shape of the first object carrying that identity token. -/
theorem regLookup_map_entry (l : List Obj) (i : Nat) :
    regLookup i (l.map (fun t => (t.objId, t.shape))) =
      Option.map (fun t => t.shape) (l.find? (fun t => t.objId == i)) := by
  induction l with
  | nil => rfl
  | cons a l ih =>
    by_cases h : a.objId = i
    · simp [regLookup, List.find?, h]
    · have hb : (a.objId == i) = false := by simp [h]
      simp [regLookup, List.find?, h, hb, ih]

/-- Folding the registry-cons over an argument list prepends the entries in
reverse argument order. -/
theorem foldl_cons_entries (args : List Obj) (reg : List (Nat × List Nat)) :
    args.foldl (fun r t => (t.objId, t.shape) :: r) reg =
      (args.map (fun t => (t.objId, t.shape))).reverse ++ reg := by
  induction args generalizing reg with
  | nil => simp
  | cons a as ih => simp [ih, List.append_assoc]

/-- C9: after `exclude_tensors_from_report`, the registry maps an identity
token to the shape of the most recently recorded argument carrying that
token (later recordings overwrite earlier ones), and keys not recorded keep
their previous binding. -/
theorem exclude_records_latest_shape (c : LeakChecker) (args : List Obj) (i : Nat) :
    regLookup i (exclude_tensors_from_report c args).excluded_tensors =
      match args.reverse.find? (fun t => t.objId == i) with
      | some t => some t.shape
      | none => regLookup i c.excluded_tensors := by
  show regLookup i (args.foldl (fun r t => (t.objId, t.shape) :: r) c.excluded_tensors) = _
  rw [foldl_cons_entries, regLookup_append, ← List.map_reverse, regLookup_map_entry]
  cases h : args.reverse.find? (fun t => t.objId == i) <;> simp [h]

/-- C10: a first `check_leaks` call whose scan finds zero tensors still
baselines the checker (the baseline becomes the empty set rather than
staying unset); a second call whose scan is non-empty does not re-baseline:
it leaves the state untouched and runs the reporting loop against the empty
baseline, under which every scanned tensor is judged leaked unless it is
excluded. -/
theorem empty_first_scan_still_baselines (c : LeakChecker) (h1 h2 : List Obj)
    (hnone : c.original_tensors = none) (hempty : get_tensors h1 = [])
    (hne : get_tensors h2 ≠ []) :
    (check_leaks c h1).1.original_tensors = some [] ∧
    (check_leaks (check_leaks c h1).1 h2).1 = (check_leaks c h1).1 ∧
    (check_leaks (check_leaks c h1).1 h2).2 =
      checkLoop c.error_on_leak [] c.excluded_tensors [] (get_tensors h2) ∧
    (∀ t ∈ get_tensors h2, isLeaked [] c.excluded_tensors t = !(is_excluded c.excluded_tensors t)) := by
  have hc1 : (check_leaks c h1).1 = { c with original_tensors := some [] } := by
    simp [check_leaks, hnone, hempty]
  have hlen : (get_tensors h2).length ≠ 0 := fun hz => hne (List.length_eq_zero.mp hz)
  refine ⟨?_, ?_, ?_, ?_⟩
  · rw [hc1]
  · rw [hc1]
    simp [check_leaks, hlen]
  · rw [hc1]
    simp [check_leaks, hlen]
  · intro t _
    simp [isLeaked]

/-- C10 witness: a fresh checker scanning a heap whose only object is
hostile baselines to the empty set, and a second call over a heap of two
tensors does not re-baseline. -/
theorem empty_first_scan_still_baselines_witness :
    (check_leaks ⟨none, false, [(3, [9])]⟩ [hostileObj]).1.original_tensors = some [] ∧
    (check_leaks (check_leaks ⟨none, false, [(3, [9])]⟩ [hostileObj]).1
        [tensorObj 3 [9], tensorObj 4 []]).1 =
      (check_leaks ⟨none, false, [(3, [9])]⟩ [hostileObj]).1 :=
  ⟨(empty_first_scan_still_baselines ⟨none, false, [(3, [9])]⟩ [hostileObj]
      [tensorObj 3 [9], tensorObj 4 []] rfl rfl (by decide)).1,
   (empty_first_scan_still_baselines ⟨none, false, [(3, [9])]⟩ [hostileObj]
      [tensorObj 3 [9], tensorObj 4 []] rfl rfl (by decide)).2.1⟩

end Torchseal
